import Mathlib

/-!
# Ext.ux.BrowserCheck

A shallow embedding of `src/BrowserCheck.js`: the browser policy check
(`check`, `checkBrowserAndVersion`), the notifier (`createNotificationBox` and
the three `construct*` methods) and the close handler (`onCloseButtonEvent`).

The script is embedded over a small universe of script values.  Mutable state is
passed explicitly: the component instance (`this`), the global scope slot named
`browserCfg` that `check` assigns without declaring, and a log of the calls made
into the host toolkit (window `show`/`close`, listener registration, callback
invocation, navigation).  A thrown exception is an `Option JSError` next to the
state reached when it was thrown.
-/

set_option autoImplicit false

namespace BrowserCheck

/-! ## Script values -/

/-- Values a configuration can hold.  Numbers are the non-negative integers
(array lengths and indices; no policy field needs another number).  An object
is a plain one: its properties are the listed own properties (the first pair
for a name counts) and its prototype is `Object.prototype`.  An array has no
holes.  A function is known by a name only: its body is user code outside the
component, and it is taken to declare no formal parameters. -/
inductive JSValue where
  | undefined
  | null
  | bool (b : Bool)
  | number (n : Nat)
  | string (s : String)
  | function (name : String)
  | object (props : List (String × JSValue))
  | array (items : List JSValue)

/-- Ways a run of the script stops early: the two exceptions the component can
raise, and `userCode` for a run that calls a function stored in the
configuration data (other than the callback): its body is not part of the
component and the embedding follows the run no further. -/
inductive JSError where
  | typeError
  | referenceError
  | userCode
  deriving DecidableEq, Repr

/-- Truthiness as used by `if (x)` and `!x`. -/
def JSValue.truthy : JSValue → Bool
  | .undefined => false
  | .null => false
  | .bool b => b
  | .number n => decide (n ≠ 0)
  | .string s => decide (s ≠ "")
  | .function _ => true
  | .object _ => true
  | .array _ => true

/-- The `typeof` operator. -/
def JSValue.typeof : JSValue → String
  | .undefined => "undefined"
  | .null => "object"
  | .bool _ => "boolean"
  | .number _ => "number"
  | .string _ => "string"
  | .function _ => "function"
  | .object _ => "object"
  | .array _ => "object"

/-- `undefined` or `null`. -/
def JSValue.isNullish : JSValue → Bool
  | .undefined => true
  | .null => true
  | _ => false

/-- Own property `k` of an object literal, if it has one. -/
def ownProperty (k : String) : List (String × JSValue) → Option JSValue
  | [] => none
  | (k', v) :: rest => if k' = k then some v else ownProperty k rest

/-- Value of a string of decimal digits. -/
def digitsValue (cs : List Char) : Nat :=
  cs.foldl (fun n c => 10 * n + (c.toNat - 48)) 0

/-- A property name that is a canonical array index (`"0"`, `"7"`, `"12"`, but
not `"07"`), with its value. -/
def arrayIndex (k : String) : Option Nat :=
  match k.data with
  | [] => none
  | [c] => if c.isDigit then some (c.toNat - 48) else none
  | c :: cs => if c ≠ '0' ∧ (c :: cs).all Char.isDigit then some (digitsValue (c :: cs)) else none

/-- Number of UTF-16 code units of a string: the script's `length`. -/
def utf16Length : List Char → Nat
  | [] => 0
  | c :: rest => (if c.toNat < 65536 then 1 else 2) + utf16Length rest

/-- Code unit `i` of a string, as the script's `s[i]` reads it.  Half of a
surrogate pair, which `Char` cannot hold, is given as U+FFFD: like the half it
is a non-empty string without properties of its own. -/
def utf16At : List Char → Nat → Option Char
  | [], _ => none
  | c :: rest, i =>
    if c.toNat < 65536 then
      if i = 0 then some c else utf16At rest (i - 1)
    else
      if i < 2 then some (Char.ofNat 65533) else utf16At rest (i - 2)

/-- Members every object inherits from `Object.prototype`. -/
def objectMembers : List String :=
  ["constructor", "__defineGetter__", "__defineSetter__", "hasOwnProperty",
   "__lookupGetter__", "__lookupSetter__", "isPrototypeOf", "propertyIsEnumerable",
   "toString", "valueOf", "__proto__", "toLocaleString"]

/-- Members of `Array.prototype`. -/
def arrayMembers : List String :=
  ["constructor", "at", "concat", "copyWithin", "fill", "find", "findIndex", "findLast",
   "findLastIndex", "lastIndexOf", "pop", "push", "reverse", "shift", "unshift", "slice",
   "sort", "splice", "includes", "indexOf", "join", "keys", "entries", "values", "forEach",
   "filter", "flat", "flatMap", "map", "every", "some", "reduce", "reduceRight",
   "toLocaleString", "toString", "toReversed", "toSorted", "toSpliced", "with"]

/-- Members of `String.prototype`. -/
def stringMembers : List String :=
  ["constructor", "anchor", "at", "big", "blink", "bold", "charAt", "charCodeAt",
   "codePointAt", "concat", "endsWith", "fontcolor", "fontsize", "fixed", "includes",
   "indexOf", "isWellFormed", "italics", "lastIndexOf", "link", "localeCompare", "match",
   "matchAll", "normalize", "padEnd", "padStart", "repeat", "replace", "replaceAll",
   "search", "slice", "small", "split", "strike", "sub", "substr", "substring", "sup",
   "startsWith", "toString", "toWellFormed", "trim", "trimStart", "trimLeft", "trimEnd",
   "trimRight", "toLocaleLowerCase", "toLocaleUpperCase", "toLowerCase", "toUpperCase",
   "valueOf"]

/-- Members of `Function.prototype`. -/
def functionMembers : List String :=
  ["constructor", "apply", "bind", "call", "toString"]

/-- Members of `Boolean.prototype`. -/
def booleanMembers : List String :=
  ["constructor", "toString", "valueOf"]

/-- Members of `Number.prototype`. -/
def numberMembers : List String :=
  ["constructor", "toExponential", "toFixed", "toLocaleString", "toPrecision", "toString",
   "valueOf"]

/-- Property `k` found on the prototype chain: `__proto__` reads as the
prototype object, a member of the value's own prototype (names `own`) or of
`Object.prototype` as a built-in function, anything else as `undefined`. -/
def inherited (own : List String) (k : String) : JSValue :=
  if k = "__proto__" then .object []
  else if k ∈ own ∨ k ∈ objectMembers then .function k
  else .undefined

/-- Code unit `i` of a string as a value: a one-unit string, `undefined` past
the end. -/
def codeUnit (cs : List Char) (i : Nat) : JSValue :=
  match utf16At cs i with
  | some c => .string (String.singleton c)
  | none => .undefined

/-- Value the property read `v[k]` finds on a value other than `undefined` and
`null`: an own property (of an object literal; `length` and the indexed
elements of an array or string; `name`, `length`, `prototype`, `arguments` and
`caller` of a function) or else an inherited member.  The member lists are
those of the current ECMAScript library. -/
def JSValue.member (v : JSValue) (k : String) : JSValue :=
  match v with
  | .undefined => .undefined
  | .null => .undefined
  | .object props =>
    match ownProperty k props with
    | some x => x
    | none => inherited [] k
  | .array items =>
    match arrayIndex k with
    | some i => items.getD i .undefined
    | none => if k = "length" then .number items.length else inherited arrayMembers k
  | .string s =>
    match arrayIndex k with
    | some i => codeUnit s.data i
    | none => if k = "length" then .number (utf16Length s.data) else inherited stringMembers k
  | .function name =>
    if k = "name" then .string name
    else if k = "length" then .number 0
    else if k = "prototype" then .object []
    else if k = "arguments" ∨ k = "caller" then .null
    else inherited functionMembers k
  | .bool _ => inherited booleanMembers k
  | .number _ => inherited numberMembers k

/-- Property read `v[k]` / `v.k`: a `TypeError` on `undefined` and `null`, the
own or inherited member otherwise. -/
def JSValue.get (v : JSValue) (k : String) : Except JSError JSValue :=
  if v.isNullish then .error .typeError else .ok (v.member k)

/-! ## Letter case

`String.prototype.toUpperCase` follows the Unicode default case conversion: each
character is replaced by its upper-case mapping, which for some characters is
more than one character long.  The tables below are those of Unicode 14.0
(simple mappings of `UnicodeData.txt`, unconditional mappings of
`SpecialCasing.txt`), run-length encoded: `(first, count, stride, image)` maps
`first + i * stride` to `image + i * stride` for `i < count`. -/

/-- Upper-case mappings to a single character. -/
def upperRuns : List (Nat × Nat × Nat × Nat) := [
  (97, 26, 1, 65), (181, 1, 1, 924), (224, 23, 1, 192), (248, 7, 1, 216), (255, 1, 1, 376),
  (257, 24, 2, 256), (305, 1, 1, 73), (307, 3, 2, 306), (314, 8, 2, 313), (331, 23, 2, 330),
  (378, 3, 2, 377), (383, 1, 1, 83), (384, 1, 1, 579), (387, 2, 2, 386), (392, 1, 1, 391),
  (396, 1, 1, 395), (402, 1, 1, 401), (405, 1, 1, 502), (409, 1, 1, 408), (410, 1, 1, 573),
  (414, 1, 1, 544), (417, 3, 2, 416), (424, 1, 1, 423), (429, 1, 1, 428), (432, 1, 1, 431),
  (436, 2, 2, 435), (441, 1, 1, 440), (445, 1, 1, 444), (447, 1, 1, 503), (453, 1, 1, 452),
  (454, 1, 1, 452), (456, 1, 1, 455), (457, 1, 1, 455), (459, 1, 1, 458), (460, 1, 1, 458),
  (462, 8, 2, 461), (477, 1, 1, 398), (479, 9, 2, 478), (498, 1, 1, 497), (499, 1, 1, 497),
  (501, 1, 1, 500), (505, 20, 2, 504), (547, 9, 2, 546), (572, 1, 1, 571), (575, 2, 1, 11390),
  (578, 1, 1, 577), (583, 5, 2, 582), (592, 1, 1, 11375), (593, 1, 1, 11373),
  (594, 1, 1, 11376), (595, 1, 1, 385), (596, 1, 1, 390), (598, 2, 1, 393), (601, 1, 1, 399),
  (603, 1, 1, 400), (604, 1, 1, 42923), (608, 1, 1, 403), (609, 1, 1, 42924), (611, 1, 1, 404),
  (613, 1, 1, 42893), (614, 1, 1, 42922), (616, 1, 1, 407), (617, 1, 1, 406),
  (618, 1, 1, 42926), (619, 1, 1, 11362), (620, 1, 1, 42925), (623, 1, 1, 412),
  (625, 1, 1, 11374), (626, 1, 1, 413), (629, 1, 1, 415), (637, 1, 1, 11364), (640, 1, 1, 422),
  (642, 1, 1, 42949), (643, 1, 1, 425), (647, 1, 1, 42929), (648, 1, 1, 430), (649, 1, 1, 580),
  (650, 2, 1, 433), (652, 1, 1, 581), (658, 1, 1, 439), (669, 1, 1, 42930), (670, 1, 1, 42928),
  (837, 1, 1, 921), (881, 2, 2, 880), (887, 1, 1, 886), (891, 3, 1, 1021), (940, 1, 1, 902),
  (941, 3, 1, 904), (945, 17, 1, 913), (962, 1, 1, 931), (963, 9, 1, 931), (972, 1, 1, 908),
  (973, 2, 1, 910), (976, 1, 1, 914), (977, 1, 1, 920), (981, 1, 1, 934), (982, 1, 1, 928),
  (983, 1, 1, 975), (985, 12, 2, 984), (1008, 1, 1, 922), (1009, 1, 1, 929),
  (1010, 1, 1, 1017), (1011, 1, 1, 895), (1013, 1, 1, 917), (1016, 1, 1, 1015),
  (1019, 1, 1, 1018), (1072, 32, 1, 1040), (1104, 16, 1, 1024), (1121, 17, 2, 1120),
  (1163, 27, 2, 1162), (1218, 7, 2, 1217), (1231, 1, 1, 1216), (1233, 48, 2, 1232),
  (1377, 38, 1, 1329), (4304, 43, 1, 7312), (4349, 3, 1, 7357), (5112, 6, 1, 5104),
  (7296, 1, 1, 1042), (7297, 1, 1, 1044), (7298, 1, 1, 1054), (7299, 2, 1, 1057),
  (7301, 1, 1, 1058), (7302, 1, 1, 1066), (7303, 1, 1, 1122), (7304, 1, 1, 42570),
  (7545, 1, 1, 42877), (7549, 1, 1, 11363), (7566, 1, 1, 42950), (7681, 75, 2, 7680),
  (7835, 1, 1, 7776), (7841, 48, 2, 7840), (7936, 8, 1, 7944), (7952, 6, 1, 7960),
  (7968, 8, 1, 7976), (7984, 8, 1, 7992), (8000, 6, 1, 8008), (8017, 4, 2, 8025),
  (8032, 8, 1, 8040), (8048, 2, 1, 8122), (8050, 4, 1, 8136), (8054, 2, 1, 8154),
  (8056, 2, 1, 8184), (8058, 2, 1, 8170), (8060, 2, 1, 8186), (8112, 2, 1, 8120),
  (8126, 1, 1, 921), (8144, 2, 1, 8152), (8160, 2, 1, 8168), (8165, 1, 1, 8172),
  (8526, 1, 1, 8498), (8560, 16, 1, 8544), (8580, 1, 1, 8579), (9424, 26, 1, 9398),
  (11312, 48, 1, 11264), (11361, 1, 1, 11360), (11365, 1, 1, 570), (11366, 1, 1, 574),
  (11368, 3, 2, 11367), (11379, 1, 1, 11378), (11382, 1, 1, 11381), (11393, 50, 2, 11392),
  (11500, 2, 2, 11499), (11507, 1, 1, 11506), (11520, 38, 1, 4256), (11559, 1, 1, 4295),
  (11565, 1, 1, 4301), (42561, 23, 2, 42560), (42625, 14, 2, 42624), (42787, 7, 2, 42786),
  (42803, 31, 2, 42802), (42874, 2, 2, 42873), (42879, 5, 2, 42878), (42892, 1, 1, 42891),
  (42897, 2, 2, 42896), (42900, 1, 1, 42948), (42903, 10, 2, 42902), (42933, 8, 2, 42932),
  (42952, 2, 2, 42951), (42961, 1, 1, 42960), (42967, 2, 2, 42966), (42998, 1, 1, 42997),
  (43859, 1, 1, 42931), (43888, 80, 1, 5024), (65345, 26, 1, 65313), (66600, 40, 1, 66560),
  (66776, 36, 1, 66736), (66967, 11, 1, 66928), (66979, 15, 1, 66940), (66995, 7, 1, 66956),
  (67003, 2, 1, 66964), (68800, 51, 1, 68736), (71872, 32, 1, 71840), (93792, 32, 1, 93760),
  (125218, 34, 1, 125184)  ]

/-- Upper-case mappings to more than one character. -/
def upperSpecial : List (Nat × List Nat) := [
  (223, [83, 83]), (329, [700, 78]), (496, [74, 780]), (912, [921, 776, 769]),
  (944, [933, 776, 769]), (1415, [1333, 1362]), (7830, [72, 817]), (7831, [84, 776]),
  (7832, [87, 778]), (7833, [89, 778]), (7834, [65, 702]), (8016, [933, 787]),
  (8018, [933, 787, 768]), (8020, [933, 787, 769]), (8022, [933, 787, 834]),
  (8064, [7944, 921]), (8065, [7945, 921]), (8066, [7946, 921]), (8067, [7947, 921]),
  (8068, [7948, 921]), (8069, [7949, 921]), (8070, [7950, 921]), (8071, [7951, 921]),
  (8072, [7944, 921]), (8073, [7945, 921]), (8074, [7946, 921]), (8075, [7947, 921]),
  (8076, [7948, 921]), (8077, [7949, 921]), (8078, [7950, 921]), (8079, [7951, 921]),
  (8080, [7976, 921]), (8081, [7977, 921]), (8082, [7978, 921]), (8083, [7979, 921]),
  (8084, [7980, 921]), (8085, [7981, 921]), (8086, [7982, 921]), (8087, [7983, 921]),
  (8088, [7976, 921]), (8089, [7977, 921]), (8090, [7978, 921]), (8091, [7979, 921]),
  (8092, [7980, 921]), (8093, [7981, 921]), (8094, [7982, 921]), (8095, [7983, 921]),
  (8096, [8040, 921]), (8097, [8041, 921]), (8098, [8042, 921]), (8099, [8043, 921]),
  (8100, [8044, 921]), (8101, [8045, 921]), (8102, [8046, 921]), (8103, [8047, 921]),
  (8104, [8040, 921]), (8105, [8041, 921]), (8106, [8042, 921]), (8107, [8043, 921]),
  (8108, [8044, 921]), (8109, [8045, 921]), (8110, [8046, 921]), (8111, [8047, 921]),
  (8114, [8122, 921]), (8115, [913, 921]), (8116, [902, 921]), (8118, [913, 834]),
  (8119, [913, 834, 921]), (8124, [913, 921]), (8130, [8138, 921]), (8131, [919, 921]),
  (8132, [905, 921]), (8134, [919, 834]), (8135, [919, 834, 921]), (8140, [919, 921]),
  (8146, [921, 776, 768]), (8147, [921, 776, 769]), (8150, [921, 834]),
  (8151, [921, 776, 834]), (8162, [933, 776, 768]), (8163, [933, 776, 769]),
  (8164, [929, 787]), (8166, [933, 834]), (8167, [933, 776, 834]), (8178, [8186, 921]),
  (8179, [937, 921]), (8180, [911, 921]), (8182, [937, 834]), (8183, [937, 834, 921]),
  (8188, [937, 921]), (64256, [70, 70]), (64257, [70, 73]), (64258, [70, 76]),
  (64259, [70, 70, 73]), (64260, [70, 70, 76]), (64261, [83, 84]), (64262, [83, 84]),
  (64275, [1348, 1350]), (64276, [1348, 1333]), (64277, [1348, 1339]), (64278, [1358, 1350]),
  (64279, [1348, 1341])  ]

/-- Lower-case mappings to a single character. -/
def lowerRuns : List (Nat × Nat × Nat × Nat) := [
  (65, 26, 1, 97), (192, 23, 1, 224), (216, 7, 1, 248), (256, 24, 2, 257), (306, 3, 2, 307),
  (313, 8, 2, 314), (330, 23, 2, 331), (376, 1, 1, 255), (377, 3, 2, 378), (385, 1, 1, 595),
  (386, 2, 2, 387), (390, 1, 1, 596), (391, 1, 1, 392), (393, 2, 1, 598), (395, 1, 1, 396),
  (398, 1, 1, 477), (399, 1, 1, 601), (400, 1, 1, 603), (401, 1, 1, 402), (403, 1, 1, 608),
  (404, 1, 1, 611), (406, 1, 1, 617), (407, 1, 1, 616), (408, 1, 1, 409), (412, 1, 1, 623),
  (413, 1, 1, 626), (415, 1, 1, 629), (416, 3, 2, 417), (422, 1, 1, 640), (423, 1, 1, 424),
  (425, 1, 1, 643), (428, 1, 1, 429), (430, 1, 1, 648), (431, 1, 1, 432), (433, 2, 1, 650),
  (435, 2, 2, 436), (439, 1, 1, 658), (440, 1, 1, 441), (444, 1, 1, 445), (452, 1, 1, 454),
  (453, 1, 1, 454), (455, 1, 1, 457), (456, 1, 1, 457), (458, 1, 1, 460), (459, 9, 2, 460),
  (478, 9, 2, 479), (497, 1, 1, 499), (498, 2, 2, 499), (502, 1, 1, 405), (503, 1, 1, 447),
  (504, 20, 2, 505), (544, 1, 1, 414), (546, 9, 2, 547), (570, 1, 1, 11365), (571, 1, 1, 572),
  (573, 1, 1, 410), (574, 1, 1, 11366), (577, 1, 1, 578), (579, 1, 1, 384), (580, 1, 1, 649),
  (581, 1, 1, 652), (582, 5, 2, 583), (880, 2, 2, 881), (886, 1, 1, 887), (895, 1, 1, 1011),
  (902, 1, 1, 940), (904, 3, 1, 941), (908, 1, 1, 972), (910, 2, 1, 973), (913, 17, 1, 945),
  (931, 9, 1, 963), (975, 1, 1, 983), (984, 12, 2, 985), (1012, 1, 1, 952), (1015, 1, 1, 1016),
  (1017, 1, 1, 1010), (1018, 1, 1, 1019), (1021, 3, 1, 891), (1024, 16, 1, 1104),
  (1040, 32, 1, 1072), (1120, 17, 2, 1121), (1162, 27, 2, 1163), (1216, 1, 1, 1231),
  (1217, 7, 2, 1218), (1232, 48, 2, 1233), (1329, 38, 1, 1377), (4256, 38, 1, 11520),
  (4295, 1, 1, 11559), (4301, 1, 1, 11565), (5024, 80, 1, 43888), (5104, 6, 1, 5112),
  (7312, 43, 1, 4304), (7357, 3, 1, 4349), (7680, 75, 2, 7681), (7838, 1, 1, 223),
  (7840, 48, 2, 7841), (7944, 8, 1, 7936), (7960, 6, 1, 7952), (7976, 8, 1, 7968),
  (7992, 8, 1, 7984), (8008, 6, 1, 8000), (8025, 4, 2, 8017), (8040, 8, 1, 8032),
  (8072, 8, 1, 8064), (8088, 8, 1, 8080), (8104, 8, 1, 8096), (8120, 2, 1, 8112),
  (8122, 2, 1, 8048), (8124, 1, 1, 8115), (8136, 4, 1, 8050), (8140, 1, 1, 8131),
  (8152, 2, 1, 8144), (8154, 2, 1, 8054), (8168, 2, 1, 8160), (8170, 2, 1, 8058),
  (8172, 1, 1, 8165), (8184, 2, 1, 8056), (8186, 2, 1, 8060), (8188, 1, 1, 8179),
  (8486, 1, 1, 969), (8490, 1, 1, 107), (8491, 1, 1, 229), (8498, 1, 1, 8526),
  (8544, 16, 1, 8560), (8579, 1, 1, 8580), (9398, 26, 1, 9424), (11264, 48, 1, 11312),
  (11360, 1, 1, 11361), (11362, 1, 1, 619), (11363, 1, 1, 7549), (11364, 1, 1, 637),
  (11367, 3, 2, 11368), (11373, 1, 1, 593), (11374, 1, 1, 625), (11375, 1, 1, 592),
  (11376, 1, 1, 594), (11378, 1, 1, 11379), (11381, 1, 1, 11382), (11390, 2, 1, 575),
  (11392, 50, 2, 11393), (11499, 2, 2, 11500), (11506, 1, 1, 11507), (42560, 23, 2, 42561),
  (42624, 14, 2, 42625), (42786, 7, 2, 42787), (42802, 31, 2, 42803), (42873, 2, 2, 42874),
  (42877, 1, 1, 7545), (42878, 5, 2, 42879), (42891, 1, 1, 42892), (42893, 1, 1, 613),
  (42896, 2, 2, 42897), (42902, 10, 2, 42903), (42922, 1, 1, 614), (42923, 1, 1, 604),
  (42924, 1, 1, 609), (42925, 1, 1, 620), (42926, 1, 1, 618), (42928, 1, 1, 670),
  (42929, 1, 1, 647), (42930, 1, 1, 669), (42931, 1, 1, 43859), (42932, 8, 2, 42933),
  (42948, 1, 1, 42900), (42949, 1, 1, 642), (42950, 1, 1, 7566), (42951, 2, 2, 42952),
  (42960, 1, 1, 42961), (42966, 2, 2, 42967), (42997, 1, 1, 42998), (65313, 26, 1, 65345),
  (66560, 40, 1, 66600), (66736, 36, 1, 66776), (66928, 11, 1, 66967), (66940, 15, 1, 66979),
  (66956, 7, 1, 66995), (66964, 2, 1, 67003), (68736, 51, 1, 68800), (71840, 32, 1, 71872),
  (93760, 32, 1, 93792), (125184, 34, 1, 125218)  ]

/-- Lower-case mappings to more than one character. -/
def lowerSpecial : List (Nat × List Nat) := [(304, [105, 775])]

/-- Image of a code point under a run-length encoded mapping, if it has one. -/
def runImage : List (Nat × Nat × Nat × Nat) → Nat → Option Nat
  | [], _ => none
  | (first, count, stride, image) :: rest, n =>
    if first ≤ n ∧ n < first + count * stride ∧ (n - first) % stride = 0 then
      some (image + (n - first))
    else runImage rest n

/-- Own entry of a code point in a table of longer mappings. -/
def specialImage : List (Nat × List Nat) → Nat → Option (List Nat)
  | [], _ => none
  | (k, image) :: rest, n => if k = n then some image else specialImage rest n

/-- Case mapping of a code point: its entry in the tables, itself when it has
none. -/
def caseCode (runs : List (Nat × Nat × Nat × Nat)) (special : List (Nat × List Nat))
    (n : Nat) : List Nat :=
  match specialImage special n with
  | some image => image
  | none =>
    match runImage runs n with
    | some m => [m]
    | none => [n]

/-- Upper-case mapping of a code point. -/
def upperCode (n : Nat) : List Nat := caseCode upperRuns upperSpecial n

/-- Lower-case mapping of a code point. -/
def lowerCode (n : Nat) : List Nat := caseCode lowerRuns lowerSpecial n

/-- The script's `s.toUpperCase()` on a string. -/
def toUpperCase (s : String) : String :=
  ⟨(s.data.flatMap fun c => upperCode c.toNat).map Char.ofNat⟩

/-- The method call `v.toUpperCase()`: defined on strings.  On `undefined` and
`null` reading the method throws; on an object that carries a function of that
name the call runs user code; every other value has no such method and the call
throws a `TypeError`. -/
def JSValue.toUpperCase : JSValue → Except JSError String
  | .string s => .ok (BrowserCheck.toUpperCase s)
  | .object props =>
    match ownProperty "toUpperCase" props with
    | some (.function _) => .error .userCode
    | _ => .error .typeError
  | _ => .error .typeError

/-! ## Host toolkit -/

/-- Sequential iteration of `fn` over the items, stopping at the first throw. -/
def forEachItems {σ : Type} (fn : JSValue → σ → Option JSError × σ) :
    List JSValue → σ → Option JSError × σ
  | [], s => (none, s)
  | x :: xs, s =>
    match fn x s with
    | (none, s') => forEachItems fn xs s'
    | (some e, s') => (some e, s')

/-- Number of rounds of `for (i = 0; i < ln; i++)`: the bound is converted to a
number.  A number counts as itself, `true` as 1, a string of decimal digits as
its value; `undefined`, `null`, `false`, the empty string, functions and plain
objects convert to `NaN` or 0 and give no round.  Other spellings of a numeric
string and arrays used as a bound are not covered and give no round here. -/
def loopCount : JSValue → Nat
  | .number n => n
  | .bool true => 1
  | .string s => if s.data.all Char.isDigit then digitsValue s.data else 0
  | _ => 0

/-- The toolkit function `Ext.Array.forEach(array, fn, scope)`: it calls
`array.forEach(fn, scope)` where the browser has a native
`Array.prototype.forEach`, and otherwise runs
`for (i = 0, ln = array.length; i < ln; i++) fn.call(scope, array[i], i, array)`.
On an array both variants visit the elements in order; on `undefined` and
`null` both throw.  Of the other values none has a `forEach` method (native
variant: `TypeError`) unless an object carries a function of that name, which
is user code.  The fallback loop walks a string by code units and an object
that has a `length` of its own by the properties `0`, `1`, … below it; a plain
object without `length`, a boolean and a number give no round, nor does a
function (its `length` is 0). -/
def forEach {σ : Type} (supportsForEach : Bool) (array : JSValue)
    (fn : JSValue → σ → Option JSError × σ) (s : σ) : Option JSError × σ :=
  match array with
  | .array items => forEachItems fn items s
  | .undefined => (some .typeError, s)
  | .null => (some .typeError, s)
  | .object props =>
    if supportsForEach then
      match ownProperty "forEach" props with
      | some (.function _) => (some .userCode, s)
      | _ => (some .typeError, s)
    else
      forEachItems fn
        ((List.range (loopCount ((ownProperty "length" props).getD .undefined))).map
          fun i => (ownProperty (toString i) props).getD .undefined) s
  | .string str =>
    if supportsForEach then (some .typeError, s)
    else
      forEachItems fn
        ((List.range (utf16Length str.data)).map fun i => codeUnit str.data i) s
  | _ => if supportsForEach then (some .typeError, s) else (none, s)

/-- What the component needs from its surroundings: whether the browser has a
native `Array.prototype.forEach`, the answers of the `Ext.ux.BrowserDetect`
helper, template rendering (`Ext.XTemplate` applied to a data object) and
whether `Ext.get(id)` finds an element. -/
structure Host where
  supportsForEach : Bool
  getBrowser : String
  getVersion : String
  applyTemplate : JSValue → List (String × JSValue) → String
  getElement : String → Bool

/-! ## Component state -/

/-- The `config` block of the component (fields the methods read). -/
structure Config where
  redirectUrl : JSValue := .null
  callback : JSValue := .null
  closeButton : JSValue := .bool true
  showNotificationBox : JSValue := .bool true
  closeText : JSValue := .string "Close application"
  notSupportedTitle : JSValue := .string "Your current browser is not supported."
  notSupportedText : JSValue :=
    .string "Below is a list of alternatives that is supported by this web application."
  headerTpl : JSValue := .null
  bodyTpl : JSValue := .null
  footerTpl : JSValue := .null
  alternatives : JSValue := .null
  browsers : JSValue := .null

/-- The component instance (`this`). -/
structure Instance where
  allowed : Bool := true
  html : String := ""
  bodyStyle : Option String := none
  config : Config := {}

/-- Calls that leave the component. -/
inductive Event where
  | show
  | close
  | listen (id : String) (event : String)
  | call (fn : String) (thisArg : Instance) (args : List Instance)
  | navigate (url : JSValue)

/-- State shared by all instances on the page: the global variable `browserCfg`
(`none` while no such variable exists) and the log of outgoing calls. -/
structure World where
  browserCfg : Option JSValue := none
  log : List Event := []

/-- State a method runs in. -/
structure State where
  self : Instance
  world : World

/-- Result of a method: the exception thrown, if any, and the state reached. -/
abbrev Outcome := Option JSError × State

/-- Append an outgoing call to the log. -/
def State.emit (s : State) (e : Event) : State :=
  { s with world := { s.world with log := s.world.log ++ [e] } }

/-! ## Methods of `Ext.ux.BrowserCheck` -/

/-- Source `constructHeader`. -/
def constructHeader (h : Host) (s : State) : State :=
  let header := h.applyTemplate s.self.config.headerTpl
    [("notSupportedTitle", s.self.config.notSupportedTitle),
     ("notSupportedText", s.self.config.notSupportedText)]
  { s with self := { s.self with html := s.self.html ++ header } }

/-- Source `constructAlternatives`. -/
def constructAlternatives (h : Host) (s : State) : State :=
  let html := h.applyTemplate s.self.config.bodyTpl
    [("alternatives", s.self.config.alternatives)]
  { s with self := { s.self with
      bodyStyle := some "background-color: #FFFFFF;"
      html := s.self.html ++ html } }

/-- Source `constructFooter`. -/
def constructFooter (h : Host) (s : State) : State :=
  if s.self.config.closeButton.truthy then
    let footer := h.applyTemplate s.self.config.footerTpl
      [("closeText", s.self.config.closeText)]
    { s with self := { s.self with html := s.self.html ++ footer } }
  else s

/-- Source `attachCloseButtonListener`: `Ext.get` answers `null` when the
element is not in the document, and `.on` on `null` throws. -/
def attachCloseButtonListener (h : Host) (s : State) : Outcome :=
  if h.getElement "uxBrowserCheckCloseButton" then
    (none, s.emit (.listen "uxBrowserCheckCloseButton" "click"))
  else (some .typeError, s)

/-- The call `this.config.callback.apply(this, [this])`: a function receives
the instance as receiver and as only argument; an object that carries a
function named `apply` runs that user code instead; on any other value the call
throws. -/
def applyCallback (s : State) : Outcome :=
  match s.self.config.callback with
  | .function f => (none, s.emit (.call f s.self [s.self]))
  | .object props =>
    match ownProperty "apply" props with
    | some (.function _) => (some .userCode, s)
    | _ => (some .typeError, s)
  | _ => (some .typeError, s)

/-- Source `createNotificationBox`. -/
def createNotificationBox (h : Host) (s : State) : Outcome :=
  if s.self.config.showNotificationBox.truthy then
    let s := constructHeader h s
    let s := constructAlternatives h s
    let s := constructFooter h s
    let s := s.emit .show
    attachCloseButtonListener h s
  else
    applyCallback s

/-- Source `onCloseButtonEvent`. -/
def onCloseButtonEvent (s : State) : Outcome :=
  if s.self.config.redirectUrl.truthy then
    let s := s.emit .close
    (none, s.emit (.navigate s.self.config.redirectUrl))
  else if s.self.config.callback.truthy then
    applyCallback s
  else
    (none, s.emit .close)

/-- Body of the callback handed to `forEach` in `checkBrowserAndVersion`; the
threaded state is the local variable `allowed`. -/
def versionStep (version : String) (versionCfg : JSValue) (allowed : Bool) :
    Option JSError × Bool :=
  match versionCfg.get version with
  | .error e => (some e, allowed)
  | .ok entry =>
    if entry.truthy then
      match entry.get "allowed" with
      | .error e => (some e, allowed)
      | .ok flag => if !flag.truthy then (none, false) else (none, true)
    else (none, allowed)

/-- Source `checkBrowserAndVersion`. -/
def checkBrowserAndVersion (h : Host) (browserCfg : JSValue) : Except JSError Bool :=
  let allowed := true
  let version := h.getVersion
  match browserCfg.get "allowed" with
  | .error e => .error e
  | .ok flag =>
    if flag.typeof ≠ "undefined" then
      if flag.truthy then .ok true else .ok false
    else
      match browserCfg.get "versions" with
      | .error e => .error e
      | .ok versions =>
        match forEach h.supportsForEach versions (versionStep version) allowed with
        | (some e, _) => .error e
        | (none, allowed) => .ok allowed

/-- Condition of the `if` inside the callback of `check`:
`browser.type.toUpperCase() == currentBrowser.toUpperCase()`. -/
def typeMatches (currentBrowser : String) (browser : JSValue) : Except JSError Bool :=
  match browser.get "type" with
  | .error e => .error e
  | .ok t =>
    match t.toUpperCase with
    | .error e => .error e
    | .ok u => .ok (decide (u = toUpperCase currentBrowser))

/-- Body of the callback handed to `forEach` in `check`; the threaded state is
the global variable `browserCfg`, which the assignment creates when it does not
exist yet. -/
def browserStep (currentBrowser : String) (browser : JSValue) (g : Option JSValue) :
    Option JSError × Option JSValue :=
  match typeMatches currentBrowser browser with
  | .error e => (some e, g)
  | .ok true => (none, some browser)
  | .ok false => (none, g)

/-- The block guarded by `if (browserCfg)` in `check`, entered with the value
read from the global variable. -/
def checkFound (h : Host) (browserCfg : JSValue) (s : State) : Outcome :=
  if browserCfg.truthy then
    match checkBrowserAndVersion h browserCfg with
    | .error e => (some e, s)
    | .ok allowed =>
      let s := { s with self := { s.self with allowed := allowed } }
      if !s.self.allowed then createNotificationBox h s else (none, s)
  else (none, s)

/-- Source `check`.  Reading the global `browserCfg` while no such variable
exists throws a `ReferenceError`. -/
def check (h : Host) (s : State) : Outcome :=
  let currentBrowser := h.getBrowser
  match forEach h.supportsForEach s.self.config.browsers (browserStep currentBrowser)
      s.world.browserCfg with
  | (some e, g) => (some e, { s with world := { s.world with browserCfg := g } })
  | (none, g) =>
    let s := { s with world := { s.world with browserCfg := g } }
    match g with
    | none => (some .referenceError, s)
    | some browserCfg => checkFound h browserCfg s

/-! ## Reading the claims

Definitions that follow the wording of the specification, to be compared with
the methods above. -/

/-- A plain object. -/
def JSValue.isObject : JSValue → Bool
  | .object _ => true
  | _ => false

/-- The policy entry carries a string `type`. -/
def hasStringType (browser : JSValue) : Bool :=
  match browser.get "type" with
  | .ok (.string _) => true
  | _ => false

/-- The entry is for the detected browser: its `type` is a string whose
upper-case spelling is that of the detected name. -/
def entryMatches (currentBrowser : String) (browser : JSValue) : Bool :=
  match browser.get "type" with
  | .ok (.string t) => decide (toUpperCase t = toUpperCase currentBrowser)
  | _ => false

/-- Last entry of the policy table, in list order, that is for the detected
browser. -/
def lastMatching (currentBrowser : String) : List JSValue → Option JSValue
  | [] => none
  | e :: rest =>
    match lastMatching currentBrowser rest with
    | some e' => some e'
    | none => if entryMatches currentBrowser e then some e else none

/-- Override that one element of a versions table carries for the detected
version, if any. -/
def overrideFor (version : String) (versionCfg : JSValue) : Option JSValue :=
  match versionCfg.get version with
  | .ok entry => if entry.truthy then some entry else none
  | .error _ => none

/-- Last override for the detected version, in iteration order. -/
def lastOverride (version : String) : List JSValue → Option JSValue
  | [] => none
  | x :: rest =>
    match lastOverride version rest with
    | some o => some o
    | none => overrideFor version x

/-- Flag that an override stands for: the truthiness of its `allowed`
property. -/
def overrideFlag (entry : JSValue) : Bool :=
  match entry.get "allowed" with
  | .ok flag => flag.truthy
  | .error _ => true

/-- Character `d` is the upper-case or the lower-case form of `c`. -/
def caseForm (c d : Char) : Prop :=
  upperCode c.toNat = [d.toNat] ∨ lowerCode c.toNat = [d.toNat]

instance (c d : Char) : Decidable (caseForm c d) := by
  unfold caseForm
  infer_instance

/-- Two characters are the same letter up to case: equal, or one the upper- or
lower-case form of the other. -/
def sameLetter (c d : Char) : Prop :=
  c = d ∨ caseForm c d ∨ caseForm d c

instance (c d : Char) : Decidable (sameLetter c d) := by
  unfold sameLetter
  infer_instance

/-- Two names differ only in letter case. -/
def differOnlyInCase (a b : String) : Prop :=
  List.Forall₂ sameLetter a.data b.data

instance (a b : String) : Decidable (differOnlyInCase a b) := by
  unfold differOnlyInCase
  infer_instance

/-- Character `d` is the upper-case form of `c`: an upper-case character (one
that upper-casing keeps) which upper-casing `c` yields. -/
def upperCaseForm (c d : Char) : Prop :=
  upperCode c.toNat = [d.toNat] ∧ upperCode d.toNat = [d.toNat]

instance (c d : Char) : Decidable (upperCaseForm c d) := by
  unfold upperCaseForm
  infer_instance

/-- Two characters are equal or one is the upper-case form of the other. -/
def upperVariant (c d : Char) : Prop :=
  c = d ∨ upperCaseForm c d ∨ upperCaseForm d c

instance (c d : Char) : Decidable (upperVariant c d) := by
  unfold upperVariant
  infer_instance

/-- One name is obtained from the other by replacing characters with their
upper-case forms, in either direction (as in `chrome`, `Chrome`, `CHROME`). -/
def upperCaseVariants (a b : String) : Prop :=
  List.Forall₂ upperVariant a.data b.data

instance (a b : String) : Decidable (upperCaseVariants a b) := by
  unfold upperCaseVariants
  infer_instance

/-- An outgoing call that dismisses the overlay. -/
def Event.isDismiss : Event → Bool
  | .close => true
  | _ => false

/-- An outgoing call that navigates the page. -/
def Event.isNavigate : Event → Bool
  | .navigate _ => true
  | _ => false

/-- An outgoing call that belongs to rendering the notification: showing the
window or attaching the close-button listener. -/
def Event.isRender : Event → Bool
  | .show => true
  | .listen _ _ => true
  | _ => false

/-! ## Sample inputs -/

/-- Host with the given forEach support and detection answers; templates render
to their field count, the close button is found. -/
def sampleHost (native : Bool) (browser version : String) : Host :=
  { supportsForEach := native, getBrowser := browser, getVersion := version,
    applyTemplate := fun _ d => toString d.length, getElement := fun _ => true }

/-- The entry of the scenario, in the documented form
`versions: (6: (allowed: false))`: a mapping from version to flag object. -/
def ieMapping : JSValue :=
  .object [("type", .string "IE"),
    ("versions", .object [("6", .object [("allowed", .bool false)])])]

/-- An entry that denies every version of IE. -/
def ieDenied : JSValue :=
  .object [("type", .string "IE"), ("allowed", .bool false)]

/-- An entry that allows every version of Firefox. -/
def firefoxAllowed : JSValue :=
  .object [("type", .string "Firefox"), ("allowed", .bool true)]

/-- A fresh instance with the given policy table and otherwise default
configuration, except that the notification is replaced by the callback
`report` when `quiet` is set. -/
def sampleInstance (browsers : List JSValue) (quiet : Bool) : Instance :=
  { config := { browsers := .array browsers, showNotificationBox := .bool (!quiet),
                callback := if quiet then .function "report" else .null } }

/-- An IE entry whose versions array overrides version 6 twice: first denied,
later allowed. -/
def ieRepeated : JSValue :=
  .object [("type", .string "IE"),
    ("versions", .array
      [.object [("6", .object [("allowed", .bool false)])],
       .object [("7", .object [("allowed", .bool false)])],
       .object [("6", .object [("allowed", .bool true)])]])]

/-- The same policy with `versions` as an array of one-key objects. -/
def ieArray : JSValue :=
  .object [("type", .string "IE"),
    ("versions", .array [.object [("6", .object [("allowed", .bool false)])]])]

/-- An entry that denies every version of Chrome. -/
def chromeDenied : JSValue :=
  .object [("type", .string "Chrome"), ("allowed", .bool false)]

/-- An entry that allows every version of a browser typed `Opéra`. -/
def operaAllowed : JSValue :=
  .object [("type", .string "Opéra"), ("allowed", .bool true)]

/-- A policy of two entries: one typed `SS`, allowed, and one typed with the
capital sharp s `ẞ` (U+1E9E), denied. -/
def sharpPolicy : List JSValue :=
  [.object [("type", .string "SS"), ("allowed", .bool true)],
   .object [("type", .string "ẞ"), ("allowed", .bool false)]]

/-! ## Auxiliary facts -/

theorem get_of_not_nullish (v : JSValue) (k : String) (hv : v.isNullish = false) :
    v.get k = .ok (v.member k) := by
  simp [JSValue.get, hv]

theorem not_nullish_of_truthy (v : JSValue) (hv : v.truthy = true) : v.isNullish = false := by
  cases v <;> simp [JSValue.truthy] at hv <;> rfl

theorem not_nullish_of_isObject (v : JSValue) (hv : v.isObject = true) :
    v.isNullish = false := by
  cases v <;> first | rfl | simp [JSValue.isObject] at hv

theorem inherited_ne_string (own : List String) (k t : String) :
    inherited own k ≠ .string t := by
  unfold inherited
  split
  · intro hc; cases hc
  · split <;> intro hc <;> cases hc

theorem truthy_of_string_type (e : JSValue) (t : String)
    (he : e.get "type" = .ok (.string t)) : e.truthy = true := by
  have hidx : arrayIndex "type" = none := by decide
  cases e with
  | undefined => simp [JSValue.get, JSValue.isNullish] at he
  | null => simp [JSValue.get, JSValue.isNullish] at he
  | bool b =>
    simp only [JSValue.get, JSValue.isNullish, JSValue.member, Bool.false_eq_true, if_false,
      Except.ok.injEq] at he
    exact absurd he (inherited_ne_string _ _ _)
  | number n =>
    simp only [JSValue.get, JSValue.isNullish, JSValue.member, Bool.false_eq_true, if_false,
      Except.ok.injEq] at he
    exact absurd he (inherited_ne_string _ _ _)
  | string s =>
    simp only [JSValue.get, JSValue.isNullish, JSValue.member, Bool.false_eq_true, if_false,
      Except.ok.injEq, hidx] at he
    rw [if_neg (by decide)] at he
    exact absurd he (inherited_ne_string _ _ _)
  | function name => rfl
  | object props => rfl
  | array items => rfl

theorem versionStep_eq (version : String) (x : JSValue) (a : Bool)
    (hx : x.isNullish = false) :
    versionStep version x a =
      (none, match overrideFor version x with
        | some o => overrideFlag o
        | none => a) := by
  have he := get_of_not_nullish x version hx
  unfold versionStep overrideFor
  rw [he]
  by_cases ht : (x.member version).truthy = true
  · have hf := get_of_not_nullish (x.member version) "allowed" (not_nullish_of_truthy _ ht)
    simp only [ht, if_true, hf, overrideFlag]
    cases ((x.member version).member "allowed").truthy <;> rfl
  · simp [ht]

theorem forEachItems_versionStep (version : String) (items : List JSValue) (a : Bool)
    (hitems : ∀ x ∈ items, x.isNullish = false) :
    forEachItems (versionStep version) items a =
      (none, match lastOverride version items with
        | some o => overrideFlag o
        | none => a) := by
  induction items generalizing a with
  | nil => rfl
  | cons x xs ih =>
    have hx : x.isNullish = false := hitems x (List.mem_cons_self _ _)
    have hxs : ∀ y ∈ xs, y.isNullish = false := fun y hy => hitems y (List.mem_cons_of_mem _ hy)
    simp only [forEachItems, versionStep_eq version x a hx, ih _ hxs, lastOverride]
    cases lastOverride version xs <;> rfl

theorem checkBrowserAndVersion_versions (h : Host) (browserCfg : JSValue)
    (items : List JSValue)
    (hflag : browserCfg.get "allowed" = .ok .undefined)
    (hvers : browserCfg.get "versions" = .ok (.array items))
    (hitems : ∀ x ∈ items, x.isNullish = false) :
    checkBrowserAndVersion h browserCfg =
      .ok (match lastOverride h.getVersion items with
        | some o => overrideFlag o
        | none => true) := by
  simp only [checkBrowserAndVersion, hflag, hvers, JSValue.typeof, ne_eq, not_true_eq_false,
    if_false, forEach, forEachItems_versionStep h.getVersion items true hitems]

theorem typeMatches_of_string_type (currentBrowser t : String) (x : JSValue)
    (hx : x.get "type" = .ok (.string t)) :
    typeMatches currentBrowser x = .ok (decide (toUpperCase t = toUpperCase currentBrowser)) := by
  simp only [typeMatches, hx, JSValue.toUpperCase]

theorem browserStep_eq (currentBrowser : String) (x : JSValue) (g : Option JSValue)
    (hx : hasStringType x = true) :
    browserStep currentBrowser x g =
      (none, if entryMatches currentBrowser x then some x else g) := by
  unfold hasStringType at hx
  split at hx
  · next t ht =>
    unfold browserStep entryMatches
    rw [typeMatches_of_string_type currentBrowser t x ht]
    simp only [ht]
    by_cases hm : toUpperCase t = toUpperCase currentBrowser <;> simp [hm]
  · exact absurd hx (by simp)

theorem forEachItems_browserStep (currentBrowser : String) (entries : List JSValue)
    (g : Option JSValue) (htypes : ∀ x ∈ entries, hasStringType x = true) :
    forEachItems (browserStep currentBrowser) entries g =
      (none, match lastMatching currentBrowser entries with
        | some e => some e
        | none => g) := by
  induction entries generalizing g with
  | nil => rfl
  | cons x xs ih =>
    have hx : hasStringType x = true := htypes x (List.mem_cons_self _ _)
    have hxs : ∀ y ∈ xs, hasStringType y = true :=
      fun y hy => htypes y (List.mem_cons_of_mem _ hy)
    simp only [forEachItems, browserStep_eq currentBrowser x g hx, ih _ hxs, lastMatching]
    cases lastMatching currentBrowser xs with
    | some e => rfl
    | none => by_cases hm : entryMatches currentBrowser x = true <;> simp [hm]

theorem entryMatches_of_lastMatching (currentBrowser : String) (entries : List JSValue)
    (e : JSValue) (hlast : lastMatching currentBrowser entries = some e) :
    entryMatches currentBrowser e = true := by
  induction entries with
  | nil => simp [lastMatching] at hlast
  | cons x xs ih =>
    simp only [lastMatching] at hlast
    cases hxs : lastMatching currentBrowser xs with
    | some e' =>
      rw [hxs] at hlast
      simp only [Option.some.injEq] at hlast
      subst hlast
      exact ih hxs
    | none =>
      rw [hxs] at hlast
      by_cases hm : entryMatches currentBrowser x = true
      · simp only [hm, if_true, Option.some.injEq] at hlast
        subst hlast
        exact hm
      · simp [hm] at hlast

theorem lastMatching_append_singleton (currentBrowser : String) (entries : List JSValue)
    (e : JSValue) (hm : entryMatches currentBrowser e = true) :
    lastMatching currentBrowser (entries ++ [e]) = some e := by
  induction entries with
  | nil => simp [lastMatching, hm]
  | cons x xs ih =>
    rw [List.cons_append]
    unfold lastMatching
    rw [ih]

theorem truthy_of_entryMatches (currentBrowser : String) (e : JSValue)
    (hm : entryMatches currentBrowser e = true) : e.truthy = true := by
  unfold entryMatches at hm
  split at hm
  · next t ht => exact truthy_of_string_type e t ht
  · exact absurd hm (by simp)

theorem check_of_lastMatching (h : Host) (s : State) (entries : List JSValue) (e : JSValue)
    (hbrowsers : s.self.config.browsers = .array entries)
    (htypes : ∀ x ∈ entries, hasStringType x = true)
    (hlast : lastMatching h.getBrowser entries = some e) :
    check h s =
      match checkBrowserAndVersion h e with
      | .error err => (some err, ⟨s.self, { s.world with browserCfg := some e }⟩)
      | .ok true =>
        (none, ⟨{ s.self with allowed := true }, { s.world with browserCfg := some e }⟩)
      | .ok false =>
        createNotificationBox h
          ⟨{ s.self with allowed := false }, { s.world with browserCfg := some e }⟩ := by
  have ht : e.truthy = true :=
    truthy_of_entryMatches _ _ (entryMatches_of_lastMatching _ _ _ hlast)
  simp only [check, hbrowsers, forEach,
    forEachItems_browserStep h.getBrowser entries s.world.browserCfg htypes, hlast, checkFound,
    ht, if_true]
  cases hc : checkBrowserAndVersion h e with
  | error err => rfl
  | ok a => cases a <;> rfl

theorem upperCode_upperVariant (c d : Char) (hcd : upperVariant c d) :
    upperCode c.toNat = upperCode d.toNat := by
  rcases hcd with rfl | ⟨h1, h2⟩ | ⟨h1, h2⟩
  · rfl
  · rw [h1, h2]
  · rw [h1, h2]

theorem toUpperCase_upperCaseVariants (a b : String) (hab : upperCaseVariants a b) :
    toUpperCase a = toUpperCase b := by
  have key : ∀ xs ys : List Char, List.Forall₂ upperVariant xs ys →
      (xs.flatMap fun c => upperCode c.toNat) = (ys.flatMap fun c => upperCode c.toNat) := by
    intro xs ys hxy
    induction hxy with
    | nil => rfl
    | cons hcd _ ih => simp only [List.flatMap_cons, upperCode_upperVariant _ _ hcd, ih]
  unfold toUpperCase
  rw [key a.data b.data hab]

/-! ## The policy evaluator -/

/-- C1: an entry that declares a top-level `allowed` flag evaluates to exactly
that flag, for every host (hence every detected version) and whatever else the
entry holds, a `versions` table included. -/
theorem checkBrowserAndVersion_flag_wins (h : Host) (browserCfg : JSValue) (b : Bool)
    (hflag : browserCfg.get "allowed" = .ok (.bool b)) :
    checkBrowserAndVersion h browserCfg = .ok b := by
  simp only [checkBrowserAndVersion, hflag, JSValue.typeof, JSValue.truthy]
  cases b <;> simp

/-- Witness for C1: a denied entry whose table allows the detected version, and
an allowed entry whose table denies it. -/
theorem checkBrowserAndVersion_flag_wins_witness :
    checkBrowserAndVersion (sampleHost true "IE" "6")
        (.object [("type", .string "IE"), ("allowed", .bool false),
          ("versions", .array [.object [("6", .object [("allowed", .bool true)])]])])
      = .ok false ∧
    checkBrowserAndVersion (sampleHost false "IE" "6")
        (.object [("type", .string "IE"), ("allowed", .bool true),
          ("versions", .array [.object [("6", .object [("allowed", .bool false)])]])])
      = .ok true :=
  ⟨checkBrowserAndVersion_flag_wins _ _ false rfl, checkBrowserAndVersion_flag_wins _ _ true rfl⟩

/-- C2: on the scenario entry in the documented mapping form, with detected
version 6, the evaluation does not answer disallowed: with a native `forEach`
it throws a `TypeError`, with the fallback loop it answers allowed.  The same
policy written as an array of one-key objects answers disallowed. -/
theorem checkBrowserAndVersion_mapping_denied_version :
    checkBrowserAndVersion (sampleHost true "IE" "6") ieMapping = .error .typeError ∧
    checkBrowserAndVersion (sampleHost false "IE" "6") ieMapping = .ok true ∧
    checkBrowserAndVersion (sampleHost true "IE" "6") ieArray = .ok false ∧
    checkBrowserAndVersion (sampleHost false "IE" "6") ieArray = .ok false :=
  ⟨rfl, rfl, rfl, rfl⟩

/-- C3: on the scenario entry in the documented mapping form, with detected
version 11 and a native `forEach`, the evaluation throws a `TypeError` instead
of answering allowed, and `check` ends with that error; the array form answers
allowed. -/
theorem checkBrowserAndVersion_mapping_other_version :
    checkBrowserAndVersion (sampleHost true "IE" "11") ieMapping = .error .typeError ∧
    (check (sampleHost true "IE" "11")
      ⟨{ config := { browsers := .array [ieMapping] } }, {}⟩).1 = some .typeError ∧
    checkBrowserAndVersion (sampleHost true "IE" "11") ieArray = .ok true :=
  ⟨rfl, rfl, rfl⟩

/-- C6 as stated fails: an entry with neither `allowed` nor `versions` does not
evaluate to allowed, it throws. -/
theorem checkBrowserAndVersion_malformed_throws :
    checkBrowserAndVersion (sampleHost true "IE" "6") (.object [("type", .string "IE")])
      ≠ .ok true ∧
    checkBrowserAndVersion (sampleHost false "IE" "6") (.object [("type", .string "IE")])
      ≠ .ok true := by
  constructor <;> intro hc <;> cases hc

/-- C6 amended: an entry with neither a top-level `allowed` flag nor a
`versions` table makes `checkBrowserAndVersion` throw a `TypeError`, on every
host; the silent default to allowed is what an entry with an empty `versions`
array gets. -/
theorem checkBrowserAndVersion_malformed (h : Host) (browserCfg emptied : JSValue)
    (hflag : browserCfg.get "allowed" = .ok .undefined)
    (hvers : browserCfg.get "versions" = .ok .undefined)
    (hflag2 : emptied.get "allowed" = .ok .undefined)
    (hvers2 : emptied.get "versions" = .ok (.array [])) :
    checkBrowserAndVersion h browserCfg = .error .typeError ∧
    checkBrowserAndVersion h emptied = .ok true := by
  constructor
  · simp only [checkBrowserAndVersion, hflag, hvers, JSValue.typeof, ne_eq, not_true_eq_false,
      if_false, forEach]
  · simp only [checkBrowserAndVersion, hflag2, hvers2, JSValue.typeof, ne_eq, not_true_eq_false,
      if_false, forEach, forEachItems]

/-- Witness for C6 amended. -/
theorem checkBrowserAndVersion_malformed_witness :
    checkBrowserAndVersion (sampleHost false "IE" "6") (.object [("type", .string "IE")])
      = .error .typeError ∧
    checkBrowserAndVersion (sampleHost false "IE" "6")
      (.object [("type", .string "IE"), ("versions", .array [])]) = .ok true :=
  checkBrowserAndVersion_malformed _ _ _ rfl rfl rfl rfl

/-- C10: last match wins.  When the policy table (entries with a string
`type`) has an entry for the detected browser, `check` stores the last such
entry in `browserCfg` and evaluates that entry: the instance's `allowed`
becomes what `checkBrowserAndVersion` returns for it, the notification is
created exactly when that is false, and an exception of the evaluation ends
`check`.  And when the versions array (of objects) of an entry without a
top-level flag carries overrides for the detected version,
`checkBrowserAndVersion` returns the `allowed` flag of the last one. -/
theorem last_match_wins (h : Host) (s : State) (entries : List JSValue) (e : JSValue)
    (browserCfg : JSValue) (items : List JSValue) (o : JSValue) (b : Bool)
    (hbrowsers : s.self.config.browsers = .array entries)
    (htypes : entries.all hasStringType = true)
    (hlast : lastMatching h.getBrowser entries = some e)
    (hflag : browserCfg.get "allowed" = .ok .undefined)
    (hvers : browserCfg.get "versions" = .ok (.array items))
    (hitems : items.all JSValue.isObject = true)
    (hover : lastOverride h.getVersion items = some o)
    (ho : o.get "allowed" = .ok (.bool b)) :
    (check h s =
      match checkBrowserAndVersion h e with
      | .error err => (some err, ⟨s.self, { s.world with browserCfg := some e }⟩)
      | .ok true =>
        (none, ⟨{ s.self with allowed := true }, { s.world with browserCfg := some e }⟩)
      | .ok false =>
        createNotificationBox h
          ⟨{ s.self with allowed := false }, { s.world with browserCfg := some e }⟩) ∧
    checkBrowserAndVersion h browserCfg = .ok b := by
  constructor
  · have ht : ∀ x ∈ entries, hasStringType x = true := by
      simpa [List.all_eq_true] using htypes
    exact check_of_lastMatching h s entries e hbrowsers ht hlast
  · have hi : ∀ x ∈ items, x.isNullish = false := by
      intro x hx
      exact not_nullish_of_isObject x (List.all_eq_true.mp hitems x hx)
    rw [checkBrowserAndVersion_versions h browserCfg items hflag hvers hi, hover]
    simp only [overrideFlag, ho, JSValue.truthy]

/-- Witness for C10: the policy holds two IE entries, the first denying IE, the
later one with a versions array holding two overrides for version 6, the later
of them allowing it; the run ends allowed, with the later entry in
`browserCfg`. -/
theorem last_match_wins_witness :
    check (sampleHost true "ie" "6")
        ⟨sampleInstance [ieDenied, firefoxAllowed, ieRepeated] false, {}⟩
      = (none, ⟨{ sampleInstance [ieDenied, firefoxAllowed, ieRepeated] false with
                    allowed := true },
                { browserCfg := some ieRepeated }⟩) ∧
    checkBrowserAndVersion (sampleHost true "ie" "6") ieRepeated = .ok true :=
  last_match_wins (sampleHost true "ie" "6")
    ⟨sampleInstance [ieDenied, firefoxAllowed, ieRepeated] false, {}⟩
    [ieDenied, firefoxAllowed, ieRepeated] ieRepeated ieRepeated _
    (.object [("allowed", .bool true)]) true rfl rfl rfl rfl rfl rfl rfl rfl

/-- C5 as stated fails: `ß` and the capital sharp s `ẞ` differ only in letter
case, but upper-casing turns the first into `SS` and keeps the second.  An
entry typed `ẞ` is not matched by the detected name `ß`, and on one policy the
two detected names select different entries: the run for `ß` ends allowed, the
run for `ẞ` disallowed. -/
theorem check_sharp_s_not_matched :
    differOnlyInCase "ß" "ẞ" ∧
    typeMatches "ß" (.object [("type", .string "ẞ"), ("allowed", .bool false)]) = .ok false ∧
    (check (sampleHost true "ß" "1") ⟨sampleInstance sharpPolicy false, {}⟩).1 = none ∧
    (check (sampleHost true "ß" "1") ⟨sampleInstance sharpPolicy false, {}⟩).2.self.allowed
      = true ∧
    (check (sampleHost true "ẞ" "1") ⟨sampleInstance sharpPolicy false, {}⟩).1 = none ∧
    (check (sampleHost true "ẞ" "1") ⟨sampleInstance sharpPolicy false, {}⟩).2.self.allowed
      = false :=
  ⟨by decide, rfl, rfl, rfl, rfl, rfl⟩

/-- C5 amended: matching compares upper-case spellings.  For detected names `a`
and `b` of which one is obtained from the other by replacing characters with
their upper-case forms, `check` ends in the same outcome from every state; an
entry whose `type` is such a variant of the detected name is matched under
either name, and so is an entry whose `type` is a variant of that type; and
when such an entry is the last of the policy table, `check` under either name
stores it in `browserCfg` and evaluates it. -/
theorem check_upper_case_variants (h : Host) (s p : State) (a b t t₂ : String)
    (e e₂ : JSValue) (entries : List JSValue)
    (hab : upperCaseVariants a b)
    (hta : upperCaseVariants t a)
    (htt : upperCaseVariants t₂ t)
    (het : e.get "type" = .ok (.string t))
    (het₂ : e₂.get "type" = .ok (.string t₂))
    (hbrowsers : p.self.config.browsers = .array (entries ++ [e]))
    (htypes : entries.all hasStringType = true) :
    check { h with getBrowser := a } s = check { h with getBrowser := b } s ∧
    typeMatches a e = .ok true ∧ typeMatches b e = .ok true ∧
    typeMatches a e₂ = .ok true ∧ typeMatches b e₂ = .ok true ∧
    (check { h with getBrowser := a } p =
      match checkBrowserAndVersion h e with
      | .error err => (some err, ⟨p.self, { p.world with browserCfg := some e }⟩)
      | .ok true =>
        (none, ⟨{ p.self with allowed := true }, { p.world with browserCfg := some e }⟩)
      | .ok false =>
        createNotificationBox h
          ⟨{ p.self with allowed := false }, { p.world with browserCfg := some e }⟩) ∧
    check { h with getBrowser := b } p = check { h with getBrowser := a } p := by
  have hup := toUpperCase_upperCaseVariants a b hab
  have hta' := toUpperCase_upperCaseVariants t a hta
  have htt' := toUpperCase_upperCaseVariants t₂ t htt
  have hstep : browserStep a = browserStep b := by
    funext x g
    simp only [browserStep, typeMatches, hup]
  have hrun : ∀ q : State, check { h with getBrowser := a } q
      = check { h with getBrowser := b } q := by
    intro q
    simp only [check, hstep]
    rfl
  have hma : typeMatches a e = .ok true := by
    rw [typeMatches_of_string_type a t e het, hta']
    simp
  have hme : entryMatches a e = true := by
    simp only [entryMatches, het, hta', decide_True]
  have hall : ∀ x ∈ entries ++ [e], hasStringType x = true := by
    intro x hx
    rcases List.mem_append.mp hx with hx | hx
    · exact List.all_eq_true.mp htypes x hx
    · rw [List.mem_singleton.mp hx]
      simp only [hasStringType, het]
  refine ⟨hrun s, hma, ?_, ?_, ?_, ?_, (hrun p).symm⟩
  · rw [typeMatches_of_string_type b t e het, hta', hup]
    simp
  · rw [typeMatches_of_string_type a t₂ e₂ het₂, htt', hta']
    simp
  · rw [typeMatches_of_string_type b t₂ e₂ het₂, htt', hta', hup]
    simp
  · exact check_of_lastMatching { h with getBrowser := a } p (entries ++ [e]) e hbrowsers hall
      (lastMatching_append_singleton a entries e hme)

/-- Witness for C5 amended: detected `opéra` and `OPÉRA` against an entry typed
`Opéra` that closes the policy table; the entry is matched and evaluated, the
run ends allowed. -/
theorem check_upper_case_variants_witness :
    check (sampleHost true "opéra" "12") ⟨sampleInstance [chromeDenied] false, {}⟩
      = check (sampleHost true "OPÉRA" "12") ⟨sampleInstance [chromeDenied] false, {}⟩ ∧
    typeMatches "opéra" operaAllowed = .ok true ∧
    typeMatches "OPÉRA" operaAllowed = .ok true ∧
    typeMatches "opéra" (.object [("type", .string "oPÉRA")]) = .ok true ∧
    typeMatches "OPÉRA" (.object [("type", .string "oPÉRA")]) = .ok true ∧
    check (sampleHost true "opéra" "12") ⟨sampleInstance [chromeDenied, operaAllowed] false, {}⟩
      = (none, ⟨{ sampleInstance [chromeDenied, operaAllowed] false with allowed := true },
                { browserCfg := some operaAllowed }⟩) ∧
    check (sampleHost true "OPÉRA" "12") ⟨sampleInstance [chromeDenied, operaAllowed] false, {}⟩
      = check (sampleHost true "opéra" "12")
          ⟨sampleInstance [chromeDenied, operaAllowed] false, {}⟩ :=
  check_upper_case_variants (sampleHost true "opéra" "12")
    ⟨sampleInstance [chromeDenied] false, {}⟩
    ⟨sampleInstance [chromeDenied, operaAllowed] false, {}⟩
    "opéra" "OPÉRA" "Opéra" "oPÉRA" operaAllowed (.object [("type", .string "oPÉRA")])
    [chromeDenied] (by decide) (by decide) (by decide) rfl rfl rfl rfl

/-! ## The notifier -/

/-- C7: with `showNotificationBox` false and a callback function configured,
`createNotificationBox` throws nothing, leaves the instance (its html included)
as it was and adds exactly one outgoing call: the callback, with the instance as
receiver and as only argument; no window is shown and no listener is attached.
Reached from `check` on an entry that evaluates disallowed, the callback
receives the instance with `allowed` false. -/
theorem createNotificationBox_suppressed (h : Host) (s : State) (f : String)
    (browserCfg : JSValue)
    (hshow : s.self.config.showNotificationBox = .bool false)
    (hcb : s.self.config.callback = .function f)
    (hcfg : browserCfg.truthy = true)
    (hdeny : checkBrowserAndVersion h browserCfg = .ok false) :
    createNotificationBox h s =
      (none, { self := s.self,
               world := { s.world with log := s.world.log ++ [Event.call f s.self [s.self]] } }) ∧
    (createNotificationBox h s).2.self.html = s.self.html ∧
    ((createNotificationBox h s).2.world.log.drop s.world.log.length).any Event.isRender
      = false ∧
    checkFound h browserCfg s =
      (none, { self := { s.self with allowed := false },
               world := { s.world with log := s.world.log ++
                 [Event.call f { s.self with allowed := false }
                   [{ s.self with allowed := false }]] } }) := by
  have hrun : createNotificationBox h s =
      (none, { self := s.self,
               world := { s.world with log := s.world.log ++ [Event.call f s.self [s.self]] } }) := by
    simp only [createNotificationBox, hshow, JSValue.truthy, applyCallback, hcb, State.emit]
    rfl
  refine ⟨hrun, ?_, ?_, ?_⟩
  · rw [hrun]
  · rw [hrun]
    simp [Event.isRender]
  · simp only [checkFound, hcfg, hdeny, createNotificationBox, hshow, applyCallback, hcb,
      State.emit]
    rfl

/-- Witness for C7: the matched entry denies IE, the instance is configured
with the callback `report` and no notification box. -/
theorem createNotificationBox_suppressed_witness :
    createNotificationBox (sampleHost true "IE" "6") ⟨sampleInstance [ieDenied] true, {}⟩ =
      (none, { self := sampleInstance [ieDenied] true,
               world := { log := [Event.call "report" (sampleInstance [ieDenied] true)
                 [sampleInstance [ieDenied] true]] } }) ∧
    (createNotificationBox (sampleHost true "IE" "6")
        ⟨sampleInstance [ieDenied] true, {}⟩).2.self.html = "" ∧
    ((createNotificationBox (sampleHost true "IE" "6")
        ⟨sampleInstance [ieDenied] true, {}⟩).2.world.log.drop 0).any Event.isRender = false ∧
    checkFound (sampleHost true "IE" "6") ieDenied ⟨sampleInstance [ieDenied] true, {}⟩ =
      (none, { self := { sampleInstance [ieDenied] true with allowed := false },
               world := { log := [Event.call "report"
                 { sampleInstance [ieDenied] true with allowed := false }
                 [{ sampleInstance [ieDenied] true with allowed := false }]] } }) :=
  createNotificationBox_suppressed (sampleHost true "IE" "6")
    ⟨sampleInstance [ieDenied] true, {}⟩ "report" ieDenied rfl rfl rfl rfl

/-- C8 as stated fails: with a redirect URL configured, one close event both
dismisses the overlay and navigates. -/
theorem onCloseButtonEvent_redirect_two_behaviours :
    (onCloseButtonEvent
        ⟨{ config := { redirectUrl := .string "/logout" } }, {}⟩).2.world.log
      = [Event.close, Event.navigate (.string "/logout")] ∧
    ((onCloseButtonEvent
        ⟨{ config := { redirectUrl := .string "/logout" } }, {}⟩).2.world.log.any
      Event.isDismiss = true ∧
     (onCloseButtonEvent
        ⟨{ config := { redirectUrl := .string "/logout" } }, {}⟩).2.world.log.any
      Event.isNavigate = true) :=
  ⟨rfl, rfl, rfl⟩

/-- C8 amended: `onCloseButtonEvent` takes exactly one of three branches.  With
a redirect URL configured it closes the overlay and then navigates there (the
callback is not invoked); otherwise, with a callback function configured, it
invokes the callback and nothing else (the overlay stays); otherwise it only
closes the overlay. -/
theorem onCloseButtonEvent_branches (s : State) (f : String) :
    (s.self.config.redirectUrl.truthy = true →
      onCloseButtonEvent s =
        (none, (s.emit .close).emit (.navigate s.self.config.redirectUrl))) ∧
    (s.self.config.redirectUrl.truthy = false → s.self.config.callback = .function f →
      onCloseButtonEvent s = (none, s.emit (.call f s.self [s.self]))) ∧
    (s.self.config.redirectUrl.truthy = false → s.self.config.callback.truthy = false →
      onCloseButtonEvent s = (none, s.emit .close)) := by
  refine ⟨?_, ?_, ?_⟩
  · intro hr
    simp only [onCloseButtonEvent, hr, if_true]
    rfl
  · intro hr hc
    have hct : s.self.config.callback.truthy = true := by rw [hc]; rfl
    simp only [onCloseButtonEvent, hr, hct, applyCallback, hc]
    rfl
  · intro hr hc
    simp only [onCloseButtonEvent, hr, hc]
    rfl

/-- Witness for C8 amended: a redirect URL next to a callback, a callback
alone, and neither. -/
theorem onCloseButtonEvent_branches_witness :
    onCloseButtonEvent
        ⟨{ config := { redirectUrl := .string "/logout", callback := .function "bye" } }, {}⟩
      = (none, ⟨{ config := { redirectUrl := .string "/logout", callback := .function "bye" } },
          { log := [Event.close, Event.navigate (.string "/logout")] }⟩) ∧
    onCloseButtonEvent ⟨{ config := { callback := .function "bye" } }, {}⟩
      = (none, ⟨{ config := { callback := .function "bye" } },
          { log := [Event.call "bye" { config := { callback := .function "bye" } }
            [{ config := { callback := .function "bye" } }]] }⟩) ∧
    onCloseButtonEvent ⟨{}, {}⟩ = (none, ⟨{}, { log := [Event.close] }⟩) :=
  ⟨(onCloseButtonEvent_branches
      ⟨{ config := { redirectUrl := .string "/logout", callback := .function "bye" } }, {}⟩
      "bye").1 rfl,
   (onCloseButtonEvent_branches ⟨{ config := { callback := .function "bye" } }, {}⟩ "bye").2.1
      rfl rfl,
   (onCloseButtonEvent_branches ⟨{}, {}⟩ "bye").2.2 rfl rfl⟩

/-! ## The global variable `browserCfg` -/

/-- C4: a detected browser that no entry names.  On a page where `browserCfg`
was never assigned, `check` throws a `ReferenceError`.  On a page where an
earlier `check` (another instance, detected browser IE) matched an entry, a
fresh instance evaluates that earlier entry: its `allowed` ends false and the
notification is rendered. -/
theorem check_no_match_is_not_silent :
    check (sampleHost true "Chrome" "30") ⟨sampleInstance [ieDenied] false, {}⟩
      = (some .referenceError, ⟨sampleInstance [ieDenied] false, {}⟩) ∧
    lastMatching "Chrome" [firefoxAllowed] = none ∧
    (check (sampleHost true "Chrome" "30")
      ⟨sampleInstance [firefoxAllowed] false,
        (check (sampleHost true "IE" "6") ⟨sampleInstance [ieDenied] true, {}⟩).2.world⟩).1
      = none ∧
    (check (sampleHost true "Chrome" "30")
      ⟨sampleInstance [firefoxAllowed] false,
        (check (sampleHost true "IE" "6")
          ⟨sampleInstance [ieDenied] true, {}⟩).2.world⟩).2.self.allowed
      = false ∧
    ((check (sampleHost true "Chrome" "30")
      ⟨sampleInstance [firefoxAllowed] false,
        (check (sampleHost true "IE" "6")
          ⟨sampleInstance [ieDenied] true, {}⟩).2.world⟩).2.world.log.any Event.isRender)
      = true :=
  ⟨rfl, rfl, rfl, rfl, rfl⟩

/-- C9: the same run of `check` (policy denying IE, detected browser Chrome,
version 30, fresh instance, empty call log) after two different histories.
After an earlier check that matched a Firefox entry it ends allowed without
notification; after an earlier check that matched the IE entry it ends
disallowed with the notification rendered. -/
theorem check_depends_on_history :
    (check (sampleHost true "Chrome" "30")
      ⟨sampleInstance [ieDenied] false,
        { browserCfg := (check (sampleHost true "Firefox" "3")
            ⟨sampleInstance [firefoxAllowed, ieDenied] false, {}⟩).2.world.browserCfg }⟩).1
      = none ∧
    (check (sampleHost true "Chrome" "30")
      ⟨sampleInstance [ieDenied] false,
        { browserCfg := (check (sampleHost true "Firefox" "3")
            ⟨sampleInstance [firefoxAllowed, ieDenied] false, {}⟩).2.world.browserCfg }⟩).2.self.allowed
      = true ∧
    (check (sampleHost true "Chrome" "30")
      ⟨sampleInstance [ieDenied] false,
        { browserCfg := (check (sampleHost true "Firefox" "3")
            ⟨sampleInstance [firefoxAllowed, ieDenied] false, {}⟩).2.world.browserCfg }⟩).2.world.log.any
        Event.isRender
      = false ∧
    (check (sampleHost true "Chrome" "30")
      ⟨sampleInstance [ieDenied] false,
        { browserCfg := (check (sampleHost true "IE" "6")
            ⟨sampleInstance [firefoxAllowed, ieDenied] true, {}⟩).2.world.browserCfg }⟩).1
      = none ∧
    (check (sampleHost true "Chrome" "30")
      ⟨sampleInstance [ieDenied] false,
        { browserCfg := (check (sampleHost true "IE" "6")
            ⟨sampleInstance [firefoxAllowed, ieDenied] true, {}⟩).2.world.browserCfg }⟩).2.self.allowed
      = false ∧
    (check (sampleHost true "Chrome" "30")
      ⟨sampleInstance [ieDenied] false,
        { browserCfg := (check (sampleHost true "IE" "6")
            ⟨sampleInstance [firefoxAllowed, ieDenied] true, {}⟩).2.world.browserCfg }⟩).2.world.log.any
        Event.isRender
      = true :=
  ⟨rfl, rfl, rfl, rfl, rfl, rfl⟩

end BrowserCheck
